import Mathlib

/-!
Verification of the real-time streaming-orchestration subsystem of the
Asistente-voice backend: the session registry (`streaming-session.service.ts`),
the STT bridge (`stt.service.ts`), the panel gateway and the Twilio media
handler (`ws.server.ts`), the analysis pipeline (`streaming-processor.service.ts`,
`objection-detector.service.ts`, `call-summary.service.ts`) and the call
orchestrator (`streaming.service.ts`).

The TypeScript services keep their per-session state in JavaScript `Map`s and
plain objects; these are embedded as association lists over `String` keys.
External collaborators (the Deepgram socket, Twilio, the LLM classifier, the
keyword trigger, RAG retrieval and suggestion generation) are injected
dependencies in the source and are modelled as explicit function parameters
or `Except` outcomes.  JavaScript numbers holding `Date.now()` timestamps are
embedded as `Int`; classifier confidences are embedded as `Rat`.
-/

/-! ## Association-list maps (JavaScript `Map` / plain-object embedding)

`aset` mirrors `Map.set` (replace in place if the key exists, append
otherwise), `adel` mirrors `Map.delete`, `alook` mirrors `Map.get`.
-/

def alook {α : Type} (k : String) : List (String × α) → Option α
  | [] => none
  | (k', v) :: rest => if k = k' then some v else alook k rest

def aset {α : Type} (k : String) (v : α) : List (String × α) → List (String × α)
  | [] => [(k, v)]
  | (k', v') :: rest => if k = k' then (k', v) :: rest else (k', v') :: aset k v rest

def adel {α : Type} (k : String) : List (String × α) → List (String × α)
  | [] => []
  | (k', v') :: rest => if k = k' then adel k rest else (k', v') :: adel k rest

@[simp]
theorem alook_aset_self {α : Type} (k : String) (v : α) (m : List (String × α)) :
    alook k (aset k v m) = some v := by
  induction m with
  | nil => simp [alook, aset]
  | cons p rest ih =>
    obtain ⟨k', v'⟩ := p
    by_cases h : k = k' <;> simp [alook, aset, h, ih]

theorem alook_aset_ne {α : Type} {k k' : String} (h : k' ≠ k) (v : α)
    (m : List (String × α)) : alook k' (aset k v m) = alook k' m := by
  induction m with
  | nil => simp [alook, aset, h]
  | cons p rest ih =>
    obtain ⟨k₀, v₀⟩ := p
    by_cases hk : k = k₀
    · subst hk
      simp [alook, aset, h]
    · by_cases hk' : k' = k₀ <;> simp [alook, aset, hk, hk', ih]

@[simp]
theorem alook_adel_self {α : Type} (k : String) (m : List (String × α)) :
    alook k (adel k m) = none := by
  induction m with
  | nil => simp [alook, adel]
  | cons p rest ih =>
    obtain ⟨k', v'⟩ := p
    by_cases h : k = k'
    · subst h
      simp [adel, ih]
    · simp [alook, adel, h, ih]

theorem adel_of_alook_none {α : Type} {k : String} {m : List (String × α)}
    (h : alook k m = none) : adel k m = m := by
  induction m with
  | nil => simp [adel]
  | cons p rest ih =>
    obtain ⟨k', v'⟩ := p
    by_cases hk : k = k'
    · simp [alook, hk] at h
    · simp [alook, hk] at h
      simp [adel, hk, ih h]

theorem alook_adel_ne {α : Type} {k k' : String} (h : k' ≠ k)
    (m : List (String × α)) : alook k' (adel k m) = alook k' m := by
  induction m with
  | nil => simp [adel]
  | cons p rest ih =>
    obtain ⟨k₀, v₀⟩ := p
    by_cases hk : k = k₀
    · subst hk
      simp [alook, adel, h, ih]
    · by_cases hk' : k' = k₀ <;> simp [alook, adel, hk, hk', ih]

/-! ## Data model (`streaming-session.service.ts`)

`PanelSocket.readyState` follows the `ws` numbering: 0 CONNECTING, 1 OPEN,
2 CLOSING, 3 CLOSED.
-/

structure PanelSocket where
  readyState : Nat
deriving DecidableEq

def wsOPEN : Nat := 1

structure SessionMemory where
  lastUtterances : List (String × Int)
  runningSummary : String
  cooldown : List (String × Int)
deriving DecidableEq

structure StreamingSession where
  sessionId : String
  callId : String
  phoneNumber : String
  agentId : Option String
  providerCallId : Option String
  wsPanel : Option PanelSocket
  createdAt : Int
  memory : SessionMemory
deriving DecidableEq

/-- Registry state of `StreamingSessionService`.  `nextUuid` is the model of
the `randomUUID()` freshness source: each call consumes one counter value and
renders it through an id-generator function (injective in any faithful model
of `randomUUID`, which is assumed collision-free). -/
structure RegState where
  sessions : List (String × StreamingSession)
  nextUuid : Nat
deriving DecidableEq

def emptyMemory : SessionMemory :=
  { lastUtterances := [], runningSummary := "", cooldown := [] }

/-- `StreamingSessionService.create`: generates both ids, initializes empty
memory, stores the session and returns it. -/
def regCreate (g : Nat → String) (now : Int) (st : RegState)
    (phone : String) (agent : Option String) : RegState × StreamingSession :=
  let sessionId := g st.nextUuid
  let callId := g (st.nextUuid + 1)
  let session : StreamingSession :=
    { sessionId := sessionId, callId := callId, phoneNumber := phone,
      agentId := agent, providerCallId := none, wsPanel := none,
      createdAt := now, memory := emptyMemory }
  ({ sessions := aset sessionId session st.sessions, nextUuid := st.nextUuid + 2 },
   session)

/-- `StreamingSessionService.get`. -/
def regGet (st : RegState) (sid : String) : Option StreamingSession :=
  alook sid st.sessions

/-- `StreamingSessionService.setPanelSocket`: last-attach-wins replacement of
the panel socket reference; returns the session, or `none` for an unknown id. -/
def regSetPanelSocket (st : RegState) (sid : String) (sock : PanelSocket) :
    RegState × Option StreamingSession :=
  match alook sid st.sessions with
  | none => (st, none)
  | some s =>
    let s' := { s with wsPanel := some sock }
    ({ st with sessions := aset sid s' st.sessions }, some s')

/-- `StreamingSessionService.setProviderCallId`. -/
def regSetProviderCallId (st : RegState) (sid : String) (pid : String) : RegState :=
  match alook sid st.sessions with
  | none => st
  | some s => { st with sessions := aset sid { s with providerCallId := some pid } st.sessions }

/-- `StreamingSessionService.close`: closes the panel socket if open (an
external effect on the socket, wrapped in its own try/catch in the source)
and removes the session from the map. -/
def regClose (st : RegState) (sid : String) : RegState :=
  { st with sessions := adel sid st.sessions }

/-! ## Claim C9: sequences of registry operations -/

inductive RegOp
  | create (now : Int) (phone : String) (agent : Option String)
  | close (sid : String)
  | setPanel (sid : String) (sock : PanelSocket)
  | setPid (sid : String) (pid : String)
deriving DecidableEq

/-- Run a sequence of registry operations, collecting the `sessionId` of every
session returned by `create`, in order. -/
def runRegOps (g : Nat → String) (st : RegState) : List RegOp → RegState × List String
  | [] => (st, [])
  | RegOp.create now phone agent :: rest =>
    let r := regCreate g now st phone agent
    let r' := runRegOps g r.1 rest
    (r'.1, r.2.sessionId :: r'.2)
  | RegOp.close sid :: rest => runRegOps g (regClose st sid) rest
  | RegOp.setPanel sid sock :: rest => runRegOps g (regSetPanelSocket st sid sock).1 rest
  | RegOp.setPid sid pid :: rest => runRegOps g (regSetProviderCallId st sid pid) rest

/-- Counter values consumed for `sessionId`s by the `create` operations of a
sequence, starting from counter `n`. -/
def createIdx (n : Nat) : List RegOp → List Nat
  | [] => []
  | RegOp.create _ _ _ :: rest => n :: createIdx (n + 2) rest
  | RegOp.close _ :: rest => createIdx n rest
  | RegOp.setPanel _ _ :: rest => createIdx n rest
  | RegOp.setPid _ _ :: rest => createIdx n rest

theorem regSetPanelSocket_nextUuid (st : RegState) (sid : String) (sock : PanelSocket) :
    (regSetPanelSocket st sid sock).1.nextUuid = st.nextUuid := by
  unfold regSetPanelSocket
  cases alook sid st.sessions <;> simp

theorem regSetProviderCallId_nextUuid (st : RegState) (sid pid : String) :
    (regSetProviderCallId st sid pid).nextUuid = st.nextUuid := by
  unfold regSetProviderCallId
  cases alook sid st.sessions <;> simp

theorem runRegOps_ids (g : Nat → String) (ops : List RegOp) :
    ∀ st : RegState, (runRegOps g st ops).2 = (createIdx st.nextUuid ops).map g := by
  induction ops with
  | nil => intro st; simp [runRegOps, createIdx]
  | cons op rest ih =>
    intro st
    cases op with
    | create now phone agent =>
      simp [runRegOps, createIdx, ih, regCreate]
    | close sid =>
      simp [runRegOps, createIdx, ih, regClose]
    | setPanel sid sock =>
      have h := regSetPanelSocket_nextUuid st sid sock
      simp [runRegOps, createIdx, ih, h]
    | setPid sid pid =>
      have h := regSetProviderCallId_nextUuid st sid pid
      simp [runRegOps, createIdx, ih, h]

theorem createIdx_lb (ops : List RegOp) :
    ∀ n i, i ∈ createIdx n ops → n ≤ i := by
  induction ops with
  | nil => intro n i h; simp [createIdx] at h
  | cons op rest ih =>
    intro n i h
    cases op with
    | create now phone agent =>
      simp [createIdx] at h
      rcases h with h | h
      · omega
      · have := ih (n + 2) i h
        omega
    | close sid => exact ih n i h
    | setPanel sid sock => exact ih n i h
    | setPid sid pid => exact ih n i h

theorem createIdx_nodup (ops : List RegOp) : ∀ n, (createIdx n ops).Nodup := by
  induction ops with
  | nil => intro n; simp [createIdx]
  | cons op rest ih =>
    intro n
    cases op with
    | create now phone agent =>
      simp only [createIdx, List.nodup_cons]
      refine ⟨fun hmem => ?_, ih (n + 2)⟩
      have := createIdx_lb rest (n + 2) n hmem
      omega
    | close sid => exact ih n
    | setPanel sid sock => exact ih n
    | setPid sid pid => exact ih n

/-- Claim C9: for every sequence of registry operations, the `sessionId`s
returned by `create` are pairwise distinct (given that the id generator
modelling `randomUUID` is collision-free), `get` after `close` returns
absent, and `close` on an id not present in the registry is a no-op that
leaves the registry unchanged. -/
theorem registry_create_unique_get_after_close (g : Nat → String) (st : RegState)
    (ops : List RegOp) (sid : String) (hg : Function.Injective g) :
    (runRegOps g st ops).2.Nodup ∧
    regGet (regClose st sid) sid = none ∧
    (regGet st sid = none → regClose st sid = st) := by
  refine ⟨?_, ?_, ?_⟩
  · rw [runRegOps_ids]
    exact (createIdx_nodup ops st.nextUuid).map hg
  · simp [regGet, regClose]
  · intro h
    simp only [regGet] at h
    simp [regClose, adel_of_alook_none h]

theorem registry_create_unique_get_after_close_witness :
    (runRegOps (fun n => String.mk (List.replicate n 'a'))
        { sessions := [], nextUuid := 0 }
        [RegOp.create 0 "+15551234567" none, RegOp.create 1 "+15550000000" (some "agent-1"),
         RegOp.close "x"]).2.Nodup ∧
    regGet (regClose { sessions := [], nextUuid := 0 } "x") "x" = none ∧
    (regGet { sessions := [], nextUuid := 0 } "x" = none →
      regClose { sessions := [], nextUuid := 0 } "x" = { sessions := [], nextUuid := 0 }) := by
  have hg : Function.Injective (fun n => String.mk (List.replicate n 'a')) := by
    intro a b h
    have h2 : List.replicate a 'a' = List.replicate b 'a' := congrArg String.data h
    have := congrArg List.length h2
    simpa using this
  exact registry_create_unique_get_after_close _ _ _ _ hg

/-! ## STT Bridge (`stt.service.ts`)

`SttService` keeps `Map<string, SessionState>`; the entry for a session is
created inside the Deepgram socket's `'open'` handler, removed by the
`'close'` handler, and removed by `stop` (which also closes the socket) only
when it exists.  The value recorded here is the upstream socket's
`readyState` (`wsOPEN` once the open event has fired). -/

inductive SttEv
  | startReq (sid : String)
  | opened (sid : String)
  | closed (sid : String)
  | stopReq (sid : String)
deriving DecidableEq

/-- One asynchronous event of `SttService`: `start` registers handlers but
does not touch the map; the `'open'` handler runs `sessions.set`; the
`'close'` handler runs `sessions.delete`; `stop` returns at once when no
state exists, otherwise closes the socket and deletes the state. -/
def sttEvStep (m : List (String × Nat)) : SttEv → List (String × Nat)
  | SttEv.startReq _ => m
  | SttEv.opened sid => aset sid wsOPEN m
  | SttEv.closed sid => adel sid m
  | SttEv.stopReq sid =>
    match alook sid m with
    | none => m
    | some _ => adel sid m

def sttTraceRun (tr : List SttEv) : List (String × Nat) :=
  List.foldl sttEvStep [] tr

def sttTouch (sid : String) : SttEv → Option Bool
  | SttEv.startReq _ => none
  | SttEv.opened s => if s = sid then some true else none
  | SttEv.closed s => if s = sid then some false else none
  | SttEv.stopReq s => if s = sid then some false else none

/-- The last event of the trace that creates or destroys bridge state for
`sid`: `some true` if it is the upstream open, `some false` if it is a close
or a stop, `none` if no such event occurs. -/
def sttLastTouch (sid : String) : List SttEv → Option Bool
  | [] => none
  | e :: rest =>
    match sttLastTouch sid rest with
    | some b => some b
    | none => sttTouch sid e

theorem sttRun_mem_aux (sid : String) (tr : List SttEv) :
    ∀ m : List (String × Nat),
      (alook sid (List.foldl sttEvStep m tr)).isSome =
        (match sttLastTouch sid tr with
         | some b => b
         | none => (alook sid m).isSome) := by
  induction tr with
  | nil => intro m; simp [sttLastTouch]
  | cons e rest ih =>
    intro m
    have step : List.foldl sttEvStep m (e :: rest) = List.foldl sttEvStep (sttEvStep m e) rest :=
      rfl
    rw [step, ih (sttEvStep m e)]
    cases hlt : sttLastTouch sid rest with
    | some b => simp [sttLastTouch, hlt]
    | none =>
      simp only [sttLastTouch, hlt]
      cases e with
      | startReq s => simp [sttTouch, sttEvStep]
      | opened s =>
        by_cases h : s = sid
        · subst h
          simp [sttTouch, sttEvStep]
        · have h' : sid ≠ s := fun hh => h hh.symm
          simp [sttTouch, sttEvStep, h, alook_aset_ne h']
      | closed s =>
        by_cases h : s = sid
        · subst h
          simp [sttTouch, sttEvStep]
        · have h' : sid ≠ s := fun hh => h hh.symm
          simp [sttTouch, sttEvStep, h, alook_adel_ne h']
      | stopReq s =>
        by_cases h : s = sid
        · subst h
          simp only [sttTouch, sttEvStep, if_pos rfl]
          cases hl : alook s m <;> simp [hl]
        · have h' : sid ≠ s := fun hh => h hh.symm
          simp only [sttTouch, sttEvStep, if_neg h]
          cases hl : alook s m <;> simp [alook_adel_ne h']

/-- Claim C3, as stated by the spec: bridge state for `sid` exists iff
`stt.start` has been called for `sid` and neither `stop` nor the upstream
close has completed for it. -/
def sttStateClaim (tr : List SttEv) : Prop :=
  ∀ sid, (alook sid (sttTraceRun tr)).isSome ↔
    (SttEv.startReq sid ∈ tr ∧ ¬ (SttEv.stopReq sid ∈ tr ∨ SttEv.closed sid ∈ tr))

/-- Claim C3 counterexample: after `stt.start` alone — before the upstream
socket's `'open'` event has fired — the bridge holds no state for the
session, although `start` has been called and no stop/close has completed. -/
theorem stt_state_iff_start_counterexample :
    ¬ sttStateClaim [SttEv.startReq "s"] := by
  intro h
  have hmem : SttEv.startReq "s" ∈ [SttEv.startReq "s"] := by simp
  have := (h "s").mpr ⟨hmem, by simp⟩
  simp [sttTraceRun, sttEvStep, alook] at this

/-- Claim C3, amended: the STT Bridge holds state for a session iff the most
recent state-relevant event for it in the trace is the upstream connection's
`'open'` (so `start` alone does not create state until the open event fires,
and stop or upstream close destroy it); and `stop` for a session with no
bridge state is a no-op. -/
theorem stt_state_iff_opened (tr : List SttEv) (sid : String)
    (m : List (String × Nat)) (hm : alook sid m = none) :
    ((alook sid (sttTraceRun tr)).isSome ↔ sttLastTouch sid tr = some true) ∧
    sttEvStep m (SttEv.stopReq sid) = m := by
  constructor
  · have h := sttRun_mem_aux sid tr []
    rw [sttTraceRun, h]
    cases hlt : sttLastTouch sid tr with
    | some b => cases b <;> simp [alook]
    | none => simp [alook]
  · simp [sttEvStep, hm]

theorem stt_state_iff_opened_witness :
    ((alook "s" (sttTraceRun [SttEv.startReq "s", SttEv.opened "s", SttEv.stopReq "s"])).isSome ↔
      sttLastTouch "s" [SttEv.startReq "s", SttEv.opened "s", SttEv.stopReq "s"] = some true) ∧
    sttEvStep [] (SttEv.stopReq "s") = [] := by
  exact stt_state_iff_opened _ "s" [] rfl

/-- `SttService.pushAudio`: forwards the chunk to the upstream socket only
when bridge state exists and the socket is `OPEN`; otherwise it returns
without delivering anything.  The second component is the delivery performed
(session id and bytes), `none` when the chunk was dropped. -/
def sttPushAudio (m : List (String × Nat)) (sid : String) (chunk : List Nat) :
    List (String × Nat) × Option (String × List Nat) :=
  match alook sid m with
  | none => (m, none)
  | some rs => if rs ≠ wsOPEN then (m, none) else (m, some (sid, chunk))

/-- Claim C8: `pushAudio` for a session with no STT bridge state, or whose
upstream connection is not in the open state, is a no-op: the bridge state is
unchanged and no audio is delivered upstream (and the model is a total
function — no exception is raised). -/
theorem pushAudio_absent_or_closed_noop (m : List (String × Nat)) (sid : String)
    (chunk : List Nat) :
    (alook sid m = none → sttPushAudio m sid chunk = (m, none)) ∧
    (∀ rs, alook sid m = some rs → rs ≠ wsOPEN → sttPushAudio m sid chunk = (m, none)) := by
  constructor
  · intro h
    simp [sttPushAudio, h]
  · intro rs h hrs
    simp [sttPushAudio, h, hrs]

theorem pushAudio_absent_or_closed_noop_witness :
    (alook "s" ([] : List (String × Nat)) = none →
      sttPushAudio [] "s" [255, 0, 127] = ([], none)) ∧
    (∀ rs, alook "s" ([("s", 3)] : List (String × Nat)) = some rs → rs ≠ wsOPEN →
      sttPushAudio [("s", 3)] "s" [255, 0, 127] = ([("s", 3)], none)) := by
  constructor
  · exact (pushAudio_absent_or_closed_noop [] "s" [255, 0, 127]).1
  · exact (pushAudio_absent_or_closed_noop [("s", 3)] "s" [255, 0, 127]).2

/-- `SttService.stop`: no-op when no bridge state exists; otherwise closes
the upstream socket (`dg.close()`, which may throw — reported in the second
component) and in all cases deletes the bridge state (`finally`). -/
def sttServiceStop (closeThrows : Bool) (m : List (String × Nat)) (sid : String) :
    List (String × Nat) × Option String :=
  match alook sid m with
  | none => (m, none)
  | some _ => (adel sid m, if closeThrows then some "dg.close failed" else none)

/-! ## Panel Gateway (`ws.server.ts`, `createGateway`)

`send` looks the session up, skips silently when there is no attached panel
socket or the socket is not `OPEN`, and otherwise writes one JSON frame.  A
write failure is caught: it is logged and the socket is closed with code 1011
(`closeWs` first calls `ws.close`, moving the socket to CLOSING).  The result
carries the possibly-updated registry together with the frames actually
written; the `Except` layer shows that every failure of the underlying
`ws.send` (the `wsSendOutcome` parameter) is caught rather than rethrown. -/

def gatewaySend (wsSendOutcome : Except String Unit) (st : RegState)
    (sid ty payload : String) :
    Except String (RegState × List (String × String × String)) :=
  match alook sid st.sessions with
  | none => Except.ok (st, [])
  | some s =>
    match s.wsPanel with
    | none => Except.ok (st, [])
    | some sock =>
      if sock.readyState ≠ wsOPEN then Except.ok (st, [])
      else
        match wsSendOutcome with
        | Except.ok _ => Except.ok (st, [(sid, ty, payload)])
        | Except.error _ =>
          let sock' : PanelSocket := { sock with readyState := 2 }
          let s' : StreamingSession := { s with wsPanel := some sock' }
          Except.ok ({ st with sessions := aset sid s' st.sessions }, [])

/-- Claim C7: the panel gateway's `send` never throws to its caller — for
every outcome of the underlying socket write it returns normally — and when
the session does not exist, has no attached panel socket, or the attached
socket is not open, it is a silent no-op: no frame is written and the
registry (including all session state) is unchanged. -/
theorem gatewaySend_never_throws_and_noop (wsSendOutcome : Except String Unit)
    (st : RegState) (sid ty payload : String) :
    (∃ v, gatewaySend wsSendOutcome st sid ty payload = Except.ok v) ∧
    (alook sid st.sessions = none →
      gatewaySend wsSendOutcome st sid ty payload = Except.ok (st, [])) ∧
    (∀ s, alook sid st.sessions = some s → s.wsPanel = none →
      gatewaySend wsSendOutcome st sid ty payload = Except.ok (st, [])) ∧
    (∀ s sock, alook sid st.sessions = some s → s.wsPanel = some sock →
      sock.readyState ≠ wsOPEN →
      gatewaySend wsSendOutcome st sid ty payload = Except.ok (st, [])) := by
  refine ⟨?_, ?_, ?_, ?_⟩
  · unfold gatewaySend
    cases h : alook sid st.sessions with
    | none => exact ⟨(st, []), rfl⟩
    | some s =>
      cases hw : s.wsPanel with
      | none => simp [hw]
      | some sock =>
        by_cases hrs : sock.readyState = wsOPEN
        · cases wsSendOutcome <;> simp [hw, hrs]
        · simp [hw, hrs]
  · intro h
    simp [gatewaySend, h]
  · intro s h hw
    simp [gatewaySend, h, hw]
  · intro s sock h hw hrs
    simp [gatewaySend, h, hw, hrs]

/-- A concrete session whose panel socket is attached but already CLOSED. -/
def demoClosedSockSession : StreamingSession :=
  { sessionId := "s", callId := "c", phoneNumber := "+15551234567", agentId := none,
    providerCallId := none, wsPanel := some { readyState := 3 }, createdAt := 0,
    memory := emptyMemory }

def demoClosedSockState : RegState :=
  { sessions := [("s", demoClosedSockSession)], nextUuid := 2 }

theorem gatewaySend_never_throws_and_noop_witness :
    (∃ v, gatewaySend (Except.error "boom") demoClosedSockState "s" "TRANSCRIPT_FINAL" "hola" =
      Except.ok v) ∧
    (alook "s" demoClosedSockState.sessions = none →
      gatewaySend (Except.error "boom") demoClosedSockState "s" "TRANSCRIPT_FINAL" "hola" =
        Except.ok (demoClosedSockState, [])) ∧
    (∀ s, alook "s" demoClosedSockState.sessions = some s → s.wsPanel = none →
      gatewaySend (Except.error "boom") demoClosedSockState "s" "TRANSCRIPT_FINAL" "hola" =
        Except.ok (demoClosedSockState, [])) ∧
    (∀ s sock, alook "s" demoClosedSockState.sessions = some s → s.wsPanel = some sock →
      sock.readyState ≠ wsOPEN →
      gatewaySend (Except.error "boom") demoClosedSockState "s" "TRANSCRIPT_FINAL" "hola" =
        Except.ok (demoClosedSockState, [])) := by
  exact gatewaySend_never_throws_and_noop (Except.error "boom") demoClosedSockState "s"
    "TRANSCRIPT_FINAL" "hola"

/-! ## Media Gateway (`ws.server.ts`, `handleTwilioMedia`)

A Twilio frame is embedded by the fields the handlers read.  JavaScript
string falsiness (`null`/`undefined`/`""`) is embedded by mapping `null` to
`""` (`jsStr`) and testing against `""` (`strOr` is the JS `||`).  The base64
decoding performed by `Buffer.from(payload, 'base64')` is an injected
parameter `b64decode`. -/

structure TwilioMsg where
  event : String
  streamSid : Option String
  startStreamSid : Option String
  startSessionId : Option String
  mediaPayload : Option String
deriving DecidableEq

def jsStr (o : Option String) : String := o.getD ""

def strOr (a b : String) : String := if a = "" then b else a

def toOpt (s : String) : Option String := if s = "" then none else some s

structure MediaResult where
  streamSid : Option String
  sessionId : Option String
  pushed : Option (String × List Nat)
deriving DecidableEq

/-- `handleTwilioMedia`: drop empty payloads; resolve the stream id from the
per-connection state or the message; resolve the session id from the
per-connection state or the stream-to-session map; drop the frame when either
resolution fails; otherwise decode the payload and push it to the STT bridge
for the resolved session (`pushed` records that delivery). -/
def handleTwilioMedia (b64decode : String → List Nat) (msg : TwilioMsg)
    (streamSid sessionId : Option String) (streamToSession : List (String × String)) :
    MediaResult :=
  let payloadB64 := jsStr msg.mediaPayload
  if payloadB64 = "" then { streamSid := streamSid, sessionId := sessionId, pushed := none }
  else
    let sidFromMsg := jsStr msg.streamSid
    let effectiveStreamSid := strOr (jsStr streamSid) sidFromMsg
    let effectiveSessionId :=
      strOr (jsStr sessionId)
        (if effectiveStreamSid ≠ "" then jsStr (alook effectiveStreamSid streamToSession) else "")
    if effectiveStreamSid = "" then
      { streamSid := none, sessionId := toOpt effectiveSessionId, pushed := none }
    else if effectiveSessionId = "" then
      { streamSid := some effectiveStreamSid, sessionId := none, pushed := none }
    else
      { streamSid := some effectiveStreamSid, sessionId := some effectiveSessionId,
        pushed := some (effectiveSessionId, b64decode payloadB64) }

/-- Claim C5: a media frame arriving on a connection whose per-connection
stream state is unset, carrying a stream id `S` that a previously processed
start handshake mapped to session `X`, and a non-empty payload, is routed to
the STT bridge for session `X` with the decoded bytes. -/
theorem media_routed_via_prior_start (b64decode : String → List Nat)
    (S X payload : String) (streamToSession : List (String × String)) (msg : TwilioMsg)
    (hS : S ≠ "") (hX : X ≠ "") (hp : payload ≠ "")
    (hmap : alook S streamToSession = some X)
    (hsid : msg.streamSid = some S) (hpay : msg.mediaPayload = some payload) :
    handleTwilioMedia b64decode msg none none streamToSession =
      { streamSid := some S, sessionId := some X,
        pushed := some (X, b64decode payload) } := by
  simp [handleTwilioMedia, jsStr, strOr, hsid, hpay, hp, hS, hmap, hX]

theorem media_routed_via_prior_start_witness :
    handleTwilioMedia (fun p => [p.length])
      { event := "media", streamSid := some "MZ1", startStreamSid := none,
        startSessionId := none, mediaPayload := some "AAAA" }
      none none [("MZ1", "sess1")] =
      { streamSid := some "MZ1", sessionId := some "sess1",
        pushed := some ("sess1", [4]) } := by
  have h := media_routed_via_prior_start (fun p => [p.length]) "MZ1" "sess1" "AAAA"
    [("MZ1", "sess1")]
    { event := "media", streamSid := some "MZ1", startStreamSid := none,
      startSessionId := none, mediaPayload := some "AAAA" }
    (by decide) (by decide) (by decide) (by decide) rfl rfl
  simpa using h

/-! ## Analysis Pipeline

`CallSummaryService` (`call-summary.service.ts`), `ObjectionDetectorService`
(`objection-detector.service.ts`) and `StreamingProcessorService`
(`streaming-processor.service.ts`).  The keyword trigger, LLM classifier, RAG
retrieval and suggestion generation are constructor-injected collaborators in
the source and appear here as function parameters.  The classifier result's
optional `entities` payload plays no role in this subsystem and is omitted. -/

def jsSliceLast (s : String) (n : Nat) : String :=
  String.mk (s.data.drop (s.data.length - n))

/-- `CallSummaryService.incremental`: append the new text (with a separating
space unless the summary is empty) and keep only the last 900 characters when
the result exceeds 900. -/
def summaryIncremental (current newText : String) : String :=
  let next := (if current = "" then "" else current ++ " ") ++ newText
  if next.length > 900 then jsSliceLast next 900 else next

/-- `CallSummaryService.finalize`. -/
def summaryFinalize (running : String) : String :=
  "Resumen de llamada:\n" ++ running

theorem summaryIncremental_length_le (current newText : String) :
    (summaryIncremental current newText).length ≤ 900 := by
  unfold summaryIncremental
  by_cases h : ((if current = "" then "" else current ++ " ") ++ newText).length > 900
  · simp only [h, if_true]
    unfold jsSliceLast
    simp only [String.length, List.length_drop]
    omega
  · simp only [h, if_false]
    omega

structure TriggerCandidate where
  candidate : String
  evidence : String
  score : Rat
  matched : List String
deriving DecidableEq

structure ObjectionClassification where
  type : String
  confidence : Rat
  reason : String
deriving DecidableEq

/-- Cooldown-map read: `params.cooldown[key] ?? 0`. -/
def cdGet (cd : List (String × Int)) (k : String) : Int :=
  (alook k cd).getD 0

/-- The cooldown guard of `ObjectionDetectorService.detect`: some candidate
type triggered within the last 15 seconds. -/
def cooldownBlocked (now : Int) (cd : List (String × Int)) (candidateTypes : List String) :
    Bool :=
  candidateTypes.any (fun t => decide (now - cdGet cd ("obj_" ++ t) < 15000))

/-- `ObjectionDetectorService.detect`: no candidates ⇒ `null`; any candidate
type inside its 15 s cooldown window ⇒ `null`; classifier miss or confidence
below 0.7 ⇒ `null`; otherwise record `now` under `obj_<type>` in the cooldown
map and return the classification.  The second component is the cooldown map
after the call (the source mutates `params.cooldown` in place). -/
def detect (trigger : String → List TriggerCandidate)
    (classify : String → List String → List String → Option ObjectionClassification)
    (now : Int) (text : String) (context : List String) (cooldown : List (String × Int)) :
    Option ObjectionClassification × List (String × Int) :=
  let candidates := trigger text
  if candidates.isEmpty then (none, cooldown)
  else
    let candidateTypes := candidates.map (fun c => c.candidate)
    if cooldownBlocked now cooldown candidateTypes then (none, cooldown)
    else
      match classify text context candidateTypes with
      | none => (none, cooldown)
      | some result =>
        if result.confidence < 7 / 10 then (none, cooldown)
        else (some result, aset ("obj_" ++ result.type) now cooldown)

/-- Claim C10: `detect` leaves the cooldown map unchanged whenever it does
not return a confirmed hit. -/
theorem detect_null_preserves_cooldown
    (trigger : String → List TriggerCandidate)
    (classify : String → List String → List String → Option ObjectionClassification)
    (now : Int) (text : String) (context : List String) (cooldown : List (String × Int))
    (h : (detect trigger classify now text context cooldown).1 = none) :
    (detect trigger classify now text context cooldown).2 = cooldown := by
  unfold detect at h ⊢
  by_cases hc : (trigger text).isEmpty
  · simp [hc]
  · by_cases hb : cooldownBlocked now cooldown ((trigger text).map (fun c => c.candidate))
    · simp [hc, hb]
    · cases hcl : classify text context ((trigger text).map (fun c => c.candidate)) with
      | none => simp [hc, hb, hcl]
      | some result =>
        by_cases hconf : result.confidence < 7 / 10
        · simp [hc, hb, hcl, hconf]
        · simp [hc, hb, hcl, hconf] at h

theorem detect_null_preserves_cooldown_witness :
    (detect (fun _ => []) (fun _ _ _ => none) 100000 "hola" [] [("obj_PRICE_HIGH", 1)]).2 =
      [("obj_PRICE_HIGH", 1)] := by
  exact detect_null_preserves_cooldown (fun _ => []) (fun _ _ _ => none) 100000 "hola" []
    [("obj_PRICE_HIGH", 1)] (by decide)

/-! The field holding the regex matches of the source's `TriggerCandidate` is
called `matched` here because `matches` is reserved in Lean. -/

/-! ## `StreamingProcessorService` -/

inductive PEvent
  | transcriptFinal (text : String) (ts : Int)
  | summaryUpdate (text : String)
  | objectionDetected (hit : ObjectionClassification)
  | ragContext (objType : String) (snippets : List String)
  | suggestion (text : String)
  | summaryFinal (text : String) (reason : Option String)
deriving DecidableEq

/-- The utterance-buffer update of `onFinal`: push the new entry, then shift
the oldest entry out when the buffer exceeds 12 entries. -/
def pushUtterance (l : List (String × Int)) (text : String) (now : Int) :
    List (String × Int) :=
  let pushed := l ++ [(text, now)]
  if pushed.length > 12 then pushed.tail else pushed

/-- `StreamingProcessorService.onFinal`: no-op for an unknown session;
otherwise append the utterance (evicting the oldest when the buffer exceeds
12), emit `TRANSCRIPT_FINAL`, update the running summary and emit
`SUMMARY_UPDATE`, run detection over the last 10 utterances as context, and
on a hit emit `OBJECTION_DETECTED`, `RAG_CONTEXT` and `SUGGESTION`.  The
returned event list is what is handed to the panel gateway's `send`. -/
def processorOnFinal (trigger : String → List TriggerCandidate)
    (classify : String → List String → List String → Option ObjectionClassification)
    (rag : String → List String) (suggest : String → List String → String → String)
    (now : Int) (st : RegState) (sid : String) (text : String) :
    RegState × List PEvent :=
  match alook sid st.sessions with
  | none => (st, [])
  | some s =>
    let utts := pushUtterance s.memory.lastUtterances text now
    let summ := summaryIncremental s.memory.runningSummary text
    let context := (utts.drop (utts.length - 10)).map (fun u => u.1)
    let dres := detect trigger classify now text context s.memory.cooldown
    let mem' : SessionMemory :=
      { lastUtterances := utts, runningSummary := summ, cooldown := dres.2 }
    let st' : RegState := { st with sessions := aset sid { s with memory := mem' } st.sessions }
    let events : List PEvent :=
      match dres.1 with
      | none => [PEvent.transcriptFinal text now, PEvent.summaryUpdate summ]
      | some hit =>
        let snippets := rag hit.type
        let sug := suggest hit.type snippets text
        [PEvent.transcriptFinal text now, PEvent.summaryUpdate summ,
         PEvent.objectionDetected hit, PEvent.ragContext hit.type snippets,
         PEvent.suggestion sug]
    (st', events)

/-- `StreamingProcessorService.end`: no-op when the session is gone,
otherwise emit `SUMMARY_FINAL` with the finalized summary and the reason. -/
def processorEnd (st : RegState) (sid : String) (reason : Option String) : List PEvent :=
  match alook sid st.sessions with
  | none => []
  | some s => [PEvent.summaryFinal (summaryFinalize s.memory.runningSummary) reason]

theorem tail_append_singleton {α : Type} (l : List α) (x : α) (h : l ≠ []) :
    (l ++ [x]).tail = l.tail ++ [x] := by
  cases l with
  | nil => exact absurd rfl h
  | cons a rest => rfl

theorem pushUtterance_shape (l : List (String × Int)) (text : String) (now : Int)
    (h : l.length ≤ 12) :
    pushUtterance l text now = (if l.length = 12 then l.tail else l) ++ [(text, now)] := by
  unfold pushUtterance
  by_cases h12 : l.length = 12
  · have hne : l ≠ [] := by
      intro hnil
      rw [hnil] at h12
      simp at h12
    have hgt : (l ++ [(text, now)]).length > 12 := by
      simp
      omega
    rw [if_pos hgt, tail_append_singleton _ _ hne, if_pos h12]
  · have hgt : ¬ (l ++ [(text, now)]).length > 12 := by
      simp
      omega
    rw [if_neg hgt, if_neg h12]

theorem pushUtterance_length_le (l : List (String × Int)) (text : String) (now : Int)
    (h : l.length ≤ 12) : (pushUtterance l text now).length ≤ 12 := by
  rw [pushUtterance_shape l text now h]
  by_cases h12 : l.length = 12
  · rw [if_pos h12]
    simp [List.length_tail]
    omega
  · rw [if_neg h12]
    simp
    omega

/-- Claim C6 (amended): after `onFinal` on an existing session whose
utterance buffer respects the capacity, the buffer still holds at most 12
entries, the new utterance is appended last with the oldest entry evicted
exactly when the buffer was full, and the running summary is trimmed by
suffix retention to at most 900 characters. -/
theorem onFinal_memory_bounds (trigger : String → List TriggerCandidate)
    (classify : String → List String → List String → Option ObjectionClassification)
    (rag : String → List String) (suggest : String → List String → String → String)
    (now : Int) (st : RegState) (sid text : String) (s : StreamingSession)
    (hs : alook sid st.sessions = some s)
    (hlen : s.memory.lastUtterances.length ≤ 12) :
    ∃ s', alook sid (processorOnFinal trigger classify rag suggest now st sid text).1.sessions
        = some s' ∧
      s'.memory.lastUtterances.length ≤ 12 ∧
      s'.memory.lastUtterances =
        (if s.memory.lastUtterances.length = 12 then s.memory.lastUtterances.tail
         else s.memory.lastUtterances) ++ [(text, now)] ∧
      s'.memory.runningSummary.length ≤ 900 := by
  simp only [processorOnFinal, hs]
  refine ⟨_, alook_aset_self _ _ _, ?_, ?_, ?_⟩
  · exact pushUtterance_length_le _ _ _ hlen
  · exact pushUtterance_shape _ _ _ hlen
  · exact summaryIncremental_length_le _ _

def demoSession : StreamingSession :=
  { sessionId := "s", callId := "c", phoneNumber := "+15551234567",
    agentId := none, providerCallId := none, wsPanel := none,
    createdAt := 0, memory := emptyMemory }

def demoFreshState : RegState :=
  { sessions := [("s", demoSession)], nextUuid := 2 }

theorem onFinal_memory_bounds_witness :
    ∃ s', alook "s" (processorOnFinal (fun _ => []) (fun _ _ _ => none) (fun _ => [])
        (fun _ _ _ => "") 5 demoFreshState "s" "hola").1.sessions = some s' ∧
      s'.memory.lastUtterances.length ≤ 12 ∧
      s'.memory.lastUtterances =
        (if demoSession.memory.lastUtterances.length = 12 then
          demoSession.memory.lastUtterances.tail
         else demoSession.memory.lastUtterances) ++ [("hola", 5)] ∧
      s'.memory.runningSummary.length ≤ 900 := by
  exact onFinal_memory_bounds (fun _ => []) (fun _ _ _ => none) (fun _ => [])
    (fun _ _ _ => "") 5 demoFreshState "s" "hola" demoSession (by decide) (by decide)

set_option maxRecDepth 40000 in
/-- Claim C6 counterexample: `onFinal` on a freshly created session with a
901-character final transcript leaves a running summary of exactly 900
characters, so the summary is not kept strictly under 900 characters. -/
theorem onFinal_summary_not_under_900 :
    (alook "s" (processorOnFinal (fun _ => []) (fun _ _ _ => none) (fun _ => [])
        (fun _ _ _ => "") 0 demoFreshState "s"
        (String.mk (List.replicate 901 'a'))).1.sessions).map
      (fun s' => s'.memory.runningSummary.length) = some 900 ∧
    ¬ (900 < 900) := by
  constructor
  · decide
  · decide

/-! ## Claim C4: cooldown semantics across consecutive `onFinal` calls -/

def countObjection (evs : List PEvent) : Nat :=
  (evs.filter (fun e => match e with
    | PEvent.objectionDetected _ => true
    | _ => false)).length

theorem isEmpty_false_of_ne_nil {α : Type} {l : List α} (h : l ≠ []) :
    l.isEmpty = false := by
  cases l with
  | nil => exact absurd rfl h
  | cons a rest => rfl

theorem cdGet_aset (cd : List (String × Int)) (k k' : String) (v : Int) :
    cdGet (aset k v cd) k' = if k' = k then v else cdGet cd k' := by
  by_cases h : k' = k
  · subst h
    simp [cdGet]
  · simp [cdGet, h, alook_aset_ne h]

theorem cooldownBlocked_of_recent {now : Int} {cd : List (String × Int)}
    {types : List String} {t : String} (hmem : t ∈ types)
    (hlt : now - cdGet cd ("obj_" ++ t) < 15000) :
    cooldownBlocked now cd types = true := by
  unfold cooldownBlocked
  rw [List.any_eq_true]
  exact ⟨t, hmem, by simpa using hlt⟩

theorem cooldownBlocked_of_stale {now : Int} {cd : List (String × Int)}
    {types : List String} (h : ∀ t ∈ types, 15000 ≤ now - cdGet cd ("obj_" ++ t)) :
    cooldownBlocked now cd types = false := by
  unfold cooldownBlocked
  rw [List.any_eq_false]
  intro t hmem
  simpa using not_lt.mpr (h t hmem)

theorem detect_fires (trigger : String → List TriggerCandidate)
    (classify : String → List String → List String → Option ObjectionClassification)
    (now : Int) (text : String) (context : List String) (cooldown : List (String × Int))
    (r : ObjectionClassification) (ht : trigger text ≠ [])
    (hnb : cooldownBlocked now cooldown ((trigger text).map (fun c => c.candidate)) = false)
    (hc : classify text context ((trigger text).map (fun c => c.candidate)) = some r)
    (hconf : ¬ (r.confidence < 7 / 10)) :
    detect trigger classify now text context cooldown =
      (some r, aset ("obj_" ++ r.type) now cooldown) := by
  unfold detect
  simp [isEmpty_false_of_ne_nil ht, hnb, hc, hconf]

theorem detect_blocked (trigger : String → List TriggerCandidate)
    (classify : String → List String → List String → Option ObjectionClassification)
    (now : Int) (text : String) (context : List String) (cooldown : List (String × Int))
    (ht : trigger text ≠ [])
    (hb : cooldownBlocked now cooldown ((trigger text).map (fun c => c.candidate)) = true) :
    detect trigger classify now text context cooldown = (none, cooldown) := by
  unfold detect
  simp [isEmpty_false_of_ne_nil ht, hb]

/-- Claim C4: in the scenario the spec describes — a final transcript whose
candidate types are all stale in the cooldown map triggers a confirmed hit at
`now₁`; a second final transcript triggering the same candidate types arrives
within the 15 s window; a third confirmed one arrives once 15 s have elapsed
since the emission — the first two `onFinal` calls emit at most one (exactly
one) `OBJECTION_DETECTED` event, and the third call emits a new one.  The
classifier is assumed to confirm with a type among the triggered candidates
(`hrange1`), as §4.5 of the spec specifies for the detection step. -/
theorem objection_cooldown_window
    (trigger : String → List TriggerCandidate)
    (classify : String → List String → List String → Option ObjectionClassification)
    (rag : String → List String) (suggest : String → List String → String → String)
    (now₁ now₂ now₃ : Int) (st : RegState) (sid text₁ text₂ text₃ : String)
    (s : StreamingSession) (r₁ r₃ : ObjectionClassification)
    (hs : alook sid st.sessions = some s)
    (hcd : ∀ k, cdGet s.memory.cooldown k ≤ now₁ - 15000)
    (ht1 : trigger text₁ ≠ [])
    (hc1 : ∀ ctx, classify text₁ ctx ((trigger text₁).map (fun c => c.candidate)) = some r₁)
    (hconf1 : ¬ (r₁.confidence < 7 / 10))
    (hrange1 : r₁.type ∈ (trigger text₁).map (fun c => c.candidate))
    (hsub : ∀ t ∈ (trigger text₁).map (fun c => c.candidate),
      t ∈ (trigger text₂).map (fun c => c.candidate))
    (hw2 : now₂ - now₁ < 15000)
    (hw3 : 15000 ≤ now₃ - now₁)
    (ht3 : trigger text₃ ≠ [])
    (hc3 : ∀ ctx, classify text₃ ctx ((trigger text₃).map (fun c => c.candidate)) = some r₃)
    (hconf3 : ¬ (r₃.confidence < 7 / 10)) :
    countObjection ((processorOnFinal trigger classify rag suggest now₁ st sid text₁).2 ++
      (processorOnFinal trigger classify rag suggest now₂
        (processorOnFinal trigger classify rag suggest now₁ st sid text₁).1 sid text₂).2) ≤ 1 ∧
    countObjection (processorOnFinal trigger classify rag suggest now₃
      (processorOnFinal trigger classify rag suggest now₂
        (processorOnFinal trigger classify rag suggest now₁ st sid text₁).1 sid text₂).1
      sid text₃).2 = 1 := by
  have ht2 : trigger text₂ ≠ [] := by
    intro hnil
    have := hsub r₁.type hrange1
    rw [hnil] at this
    simp at this
  have hnb1 : cooldownBlocked now₁ s.memory.cooldown
      ((trigger text₁).map (fun c => c.candidate)) = false := by
    apply cooldownBlocked_of_stale
    intro t _
    have := hcd ("obj_" ++ t)
    omega
  have hdet1 : ∀ ctx, detect trigger classify now₁ text₁ ctx s.memory.cooldown =
      (some r₁, aset ("obj_" ++ r₁.type) now₁ s.memory.cooldown) := fun ctx =>
    detect_fires trigger classify now₁ text₁ ctx s.memory.cooldown r₁ ht1 hnb1 (hc1 ctx) hconf1
  have hb2 : cooldownBlocked now₂ (aset ("obj_" ++ r₁.type) now₁ s.memory.cooldown)
      ((trigger text₂).map (fun c => c.candidate)) = true := by
    apply cooldownBlocked_of_recent (hsub r₁.type hrange1)
    rw [cdGet_aset, if_pos rfl]
    omega
  have hdet2 : ∀ ctx, detect trigger classify now₂ text₂ ctx
      (aset ("obj_" ++ r₁.type) now₁ s.memory.cooldown) =
      (none, aset ("obj_" ++ r₁.type) now₁ s.memory.cooldown) := fun ctx =>
    detect_blocked trigger classify now₂ text₂ ctx _ ht2 hb2
  have hnb3 : cooldownBlocked now₃ (aset ("obj_" ++ r₁.type) now₁ s.memory.cooldown)
      ((trigger text₃).map (fun c => c.candidate)) = false := by
    apply cooldownBlocked_of_stale
    intro t _
    rw [cdGet_aset]
    by_cases h : ("obj_" ++ t) = ("obj_" ++ r₁.type)
    · rw [if_pos h]
      omega
    · rw [if_neg h]
      have := hcd ("obj_" ++ t)
      omega
  have hdet3 : ∀ ctx, detect trigger classify now₃ text₃ ctx
      (aset ("obj_" ++ r₁.type) now₁ s.memory.cooldown) =
      (some r₃, aset ("obj_" ++ r₃.type) now₃
        (aset ("obj_" ++ r₁.type) now₁ s.memory.cooldown)) := fun ctx =>
    detect_fires trigger classify now₃ text₃ ctx _ r₃ ht3 hnb3 (hc3 ctx) hconf3
  simp only [processorOnFinal, hs, hdet1, alook_aset_self, hdet2, hdet3]
  simp [countObjection]

def demoTrigger : String → List TriggerCandidate := fun t =>
  if t = "muy caro" then
    [{ candidate := "PRICE_HIGH", evidence := t, score := 95 / 100,
       matched := ["muy caro"] }]
  else []

def demoHit : ObjectionClassification :=
  { type := "PRICE_HIGH", confidence := 9 / 10, reason := "precio alto" }

def demoClassify : String → List String → List String → Option ObjectionClassification :=
  fun _ _ _ => some demoHit

theorem objection_cooldown_window_witness :
    countObjection ((processorOnFinal demoTrigger demoClassify (fun _ => []) (fun _ _ _ => "")
        100000 demoFreshState "s" "muy caro").2 ++
      (processorOnFinal demoTrigger demoClassify (fun _ => []) (fun _ _ _ => "") 110000
        (processorOnFinal demoTrigger demoClassify (fun _ => []) (fun _ _ _ => "")
          100000 demoFreshState "s" "muy caro").1 "s" "muy caro").2) ≤ 1 ∧
    countObjection (processorOnFinal demoTrigger demoClassify (fun _ => []) (fun _ _ _ => "")
      115000
      (processorOnFinal demoTrigger demoClassify (fun _ => []) (fun _ _ _ => "") 110000
        (processorOnFinal demoTrigger demoClassify (fun _ => []) (fun _ _ _ => "")
          100000 demoFreshState "s" "muy caro").1 "s" "muy caro").1
      "s" "muy caro").2 = 1 := by
  refine objection_cooldown_window demoTrigger demoClassify (fun _ => []) (fun _ _ _ => "")
    100000 110000 115000 demoFreshState "s" "muy caro" "muy caro" "muy caro" demoSession
    demoHit demoHit (by decide) ?_ (by decide) (fun ctx => rfl)
    (by norm_num [demoHit]) (by decide)
    (fun t ht => ht) (by decide) (by decide) (by decide) (fun ctx => rfl)
    (by norm_num [demoHit])
  intro k
  simp [demoSession, emptyMemory, cdGet, alook]

/-! ## Call Orchestrator (`streaming.service.ts`)

`StreamingService` owns the registry and the STT bridge map.  Outcomes of the
external calls (`stt.start`, `voip.startCall`, `voip.endCall`, `dg.close`)
are injected as `Except` values / flags.  `TStep` records the teardown steps
the orchestrator attempts, in order; a step whose external call fails is
still recorded because the source wraps each one in its own try/catch and
continues. -/

structure SysState where
  registry : RegState
  stt : List (String × Nat)
deriving DecidableEq

inductive TStep
  | voipEnd (providerCallId : String)
  | sttStop
  | processorEnd (reason : Option String)
  | registryClose
deriving DecidableEq

structure StartCallOutput where
  sessionId : String
  callId : String
  panelWsPath : String
  panelWsUrl : String
  providerCallId : String
deriving DecidableEq

/-- `basePublicUrl.replace(/^http:/, 'ws:').replace(/^https:/, 'wss:')`. -/
def wsify (s : String) : String :=
  if s.startsWith "https:" then "wss:" ++ s.drop 6
  else if s.startsWith "http:" then "ws:" ++ s.drop 5
  else s

/-- `StreamingService.safeStop`: stop the STT bridge (failure caught and
logged), run `processor.end` with the compensation reason (the emitted
events are returned; the session still exists at this point so
`SUMMARY_FINAL` fires), close the session in the registry; each step is
wrapped in its own try/catch. -/
def safeStop (closeThrows : Bool) (st : SysState) (sid : String) (reason : String) :
    SysState × List TStep × List PEvent :=
  let sttRes := sttServiceStop closeThrows st.stt sid
  let events := processorEnd st.registry sid (some reason)
  let reg' := regClose st.registry sid
  ({ registry := reg', stt := sttRes.1 },
   [TStep.sttStop, TStep.processorEnd (some reason), TStep.registryClose],
   events)

/-- `StreamingService.startCall`: create a session; start the STT bridge (on
rejection run `safeStop` with reason `STT_START_FAILED` and rethrow); on
success the bridge holds state for the session once the upstream open event
fires (`wsOPEN`); place the telephony call (on rejection run `safeStop` with
reason `VOIP_START_FAILED` — stopping the already-started bridge — and
rethrow); on success record the provider call id and return the identifiers
and panel address. -/
def startCall (g : Nat → String) (publicUrl : String) (now : Int)
    (sttStartOutcome : Except String Unit) (voipOutcome : Except String String)
    (closeThrows : Bool) (st : SysState) (phone : String) (agent : Option String) :
    SysState × Except String StartCallOutput × List TStep :=
  let created := regCreate g now st.registry phone agent
  let session := created.2
  let st1 : SysState := { registry := created.1, stt := st.stt }
  match sttStartOutcome with
  | Except.error e =>
    let stopped := safeStop closeThrows st1 session.sessionId "STT_START_FAILED"
    (stopped.1, Except.error e, stopped.2.1)
  | Except.ok _ =>
    let st2 : SysState := { st1 with stt := aset session.sessionId wsOPEN st1.stt }
    match voipOutcome with
    | Except.error e =>
      let stopped := safeStop closeThrows st2 session.sessionId "VOIP_START_FAILED"
      (stopped.1, Except.error e, stopped.2.1)
    | Except.ok pid =>
      let st3 : SysState :=
        { st2 with registry := regSetProviderCallId st2.registry session.sessionId pid }
      let panelWsPath := "/ws/panel?sessionId=" ++ session.sessionId
      (st3,
       Except.ok { sessionId := session.sessionId, callId := session.callId,
                   panelWsPath := panelWsPath,
                   panelWsUrl := wsify publicUrl ++ panelWsPath,
                   providerCallId := pid },
       [])

/-- `StreamingService.endCall`: return silently when the session is unknown;
otherwise end the telephony call only when a provider call id is recorded
(failure caught and logged), stop the STT bridge (failure caught and logged),
run `processor.end` (failure caught and logged), and close the session in the
registry; every step runs regardless of earlier failures. -/
def endCall (voipEndFails closeThrows : Bool) (st : SysState) (sid : String)
    (reason : Option String) : SysState × List TStep × List PEvent :=
  match regGet st.registry sid with
  | none => (st, [], [])
  | some s =>
    let voipSteps : List TStep :=
      match s.providerCallId with
      | some pid => [TStep.voipEnd pid]
      | none => []
    let sttRes := sttServiceStop closeThrows st.stt sid
    let events := processorEnd st.registry sid reason
    let reg' := regClose st.registry sid
    ({ registry := reg', stt := sttRes.1 },
     voipSteps ++ [TStep.sttStop, TStep.processorEnd reason, TStep.registryClose],
     events)

/-- Claim C1: if `stt.start` rejects, `startCall` rethrows the error after
compensating teardown — the STT bridge holds no state for the session, the
pipeline's `end` was invoked with reason `STT_START_FAILED`, and the session
is gone from the registry; if `stt.start` succeeds and `voip.startCall`
rejects, the same teardown runs with reason `VOIP_START_FAILED` (the
already-started bridge is stopped as well) and the error is rethrown. -/
theorem startCall_compensating_teardown (g : Nat → String) (publicUrl : String)
    (now : Int) (e : String) (voipOutcome : Except String String) (closeThrows : Bool)
    (st : SysState) (phone : String) (agent : Option String) :
    ((startCall g publicUrl now (Except.error e) voipOutcome closeThrows st phone agent).2.1 =
        Except.error e ∧
      regGet (startCall g publicUrl now (Except.error e) voipOutcome closeThrows
        st phone agent).1.registry (g st.registry.nextUuid) = none ∧
      alook (g st.registry.nextUuid)
        (startCall g publicUrl now (Except.error e) voipOutcome closeThrows
          st phone agent).1.stt = none ∧
      (startCall g publicUrl now (Except.error e) voipOutcome closeThrows
        st phone agent).2.2 =
        [TStep.sttStop, TStep.processorEnd (some "STT_START_FAILED"), TStep.registryClose]) ∧
    ((startCall g publicUrl now (Except.ok ()) (Except.error e) closeThrows
        st phone agent).2.1 = Except.error e ∧
      regGet (startCall g publicUrl now (Except.ok ()) (Except.error e) closeThrows
        st phone agent).1.registry (g st.registry.nextUuid) = none ∧
      alook (g st.registry.nextUuid)
        (startCall g publicUrl now (Except.ok ()) (Except.error e) closeThrows
          st phone agent).1.stt = none ∧
      (startCall g publicUrl now (Except.ok ()) (Except.error e) closeThrows
        st phone agent).2.2 =
        [TStep.sttStop, TStep.processorEnd (some "VOIP_START_FAILED"), TStep.registryClose]) := by
  constructor
  · refine ⟨rfl, ?_, ?_, rfl⟩
    · simp [startCall, safeStop, regClose, regGet, regCreate]
    · simp only [startCall, safeStop, sttServiceStop, regCreate]
      cases h : alook (g st.registry.nextUuid) st.stt with
      | none => simp [h]
      | some rs => simp [h]
  · refine ⟨rfl, ?_, ?_, rfl⟩
    · simp [startCall, safeStop, regClose, regGet, regCreate]
    · simp [startCall, safeStop, sttServiceStop, regCreate]

def countRegistryClose (l : List TStep) : Nat :=
  (l.filter (fun x => decide (x = TStep.registryClose))).length

/-- Claim C2: for a session present in the registry, `endCall` attempts every
teardown step whatever the failure flags of the external calls — telephony
end exactly when a provider call id is recorded, STT stop, pipeline end, and
registry close — and afterwards the session is gone; a second `endCall` on
the same id returns normally without performing any step, so registry
cleanup happens exactly once across the two calls. -/
theorem endCall_teardown_complete_and_idempotent (f1 f2 f1' f2' : Bool)
    (st : SysState) (sid : String) (reason : Option String) (s : StreamingSession)
    (hs : regGet st.registry sid = some s) :
    TStep.sttStop ∈ (endCall f1 f2 st sid reason).2.1 ∧
    TStep.processorEnd reason ∈ (endCall f1 f2 st sid reason).2.1 ∧
    TStep.registryClose ∈ (endCall f1 f2 st sid reason).2.1 ∧
    (∀ pid, s.providerCallId = some pid → TStep.voipEnd pid ∈ (endCall f1 f2 st sid reason).2.1) ∧
    (s.providerCallId = none → ∀ pid, TStep.voipEnd pid ∉ (endCall f1 f2 st sid reason).2.1) ∧
    regGet (endCall f1 f2 st sid reason).1.registry sid = none ∧
    endCall f1' f2' (endCall f1 f2 st sid reason).1 sid reason =
      ((endCall f1 f2 st sid reason).1, [], []) ∧
    countRegistryClose ((endCall f1 f2 st sid reason).2.1 ++
      (endCall f1' f2' (endCall f1 f2 st sid reason).1 sid reason).2.1) = 1 := by
  have hs' : alook sid st.registry.sessions = some s := hs
  cases hp : s.providerCallId with
  | none =>
    refine ⟨?_, ?_, ?_, ?_, ?_, ?_, ?_, ?_⟩ <;>
      simp [endCall, regGet, hs', hp, regClose, countRegistryClose]
  | some pid =>
    refine ⟨?_, ?_, ?_, ?_, ?_, ?_, ?_, ?_⟩ <;>
      simp [endCall, regGet, hs', hp, regClose, countRegistryClose]

def demoActiveSession : StreamingSession :=
  { demoSession with providerCallId := some "CA123" }

def demoActiveSys : SysState :=
  { registry := { sessions := [("s", demoActiveSession)], nextUuid := 2 },
    stt := [("s", 1)] }

theorem endCall_teardown_complete_and_idempotent_witness :
    TStep.sttStop ∈ (endCall true true demoActiveSys "s" (some "operator_hangup")).2.1 ∧
    TStep.processorEnd (some "operator_hangup") ∈
      (endCall true true demoActiveSys "s" (some "operator_hangup")).2.1 ∧
    TStep.registryClose ∈ (endCall true true demoActiveSys "s" (some "operator_hangup")).2.1 ∧
    (∀ pid, demoActiveSession.providerCallId = some pid →
      TStep.voipEnd pid ∈ (endCall true true demoActiveSys "s" (some "operator_hangup")).2.1) ∧
    (demoActiveSession.providerCallId = none → ∀ pid,
      TStep.voipEnd pid ∉ (endCall true true demoActiveSys "s" (some "operator_hangup")).2.1) ∧
    regGet (endCall true true demoActiveSys "s" (some "operator_hangup")).1.registry "s" =
      none ∧
    endCall false true (endCall true true demoActiveSys "s" (some "operator_hangup")).1 "s"
        (some "operator_hangup") =
      ((endCall true true demoActiveSys "s" (some "operator_hangup")).1, [], []) ∧
    countRegistryClose ((endCall true true demoActiveSys "s" (some "operator_hangup")).2.1 ++
      (endCall false true (endCall true true demoActiveSys "s" (some "operator_hangup")).1 "s"
        (some "operator_hangup")).2.1) = 1 := by
  exact endCall_teardown_complete_and_idempotent true true false true demoActiveSys "s"
    (some "operator_hangup") demoActiveSession (by decide)
